import Mathlib

/-!
Verification of the parser-combinator core of the `lang-tools` repository.

The Rust `Parser<S, V>` wraps a one-shot closure `S -> (V, S, Vec<String>)`
threading a scanner state and accumulating an ordered error log.  We embed it
shallowly as the function type itself.  The `Scanner`/`Token` capability
contracts (trait `Scanner` with associated `Token`, trait `Token` with an
equality-comparable `TokenType`) are embedded as a bundle of operations
`ScannerOps`.
-/

/-- Embedding of the `Scanner` and `Token` capability contracts from
`src/scanner.rs`: `from_scanner`, `scan_token`, `is_finished`,
`current_token`, `next_token` from trait `Scanner`, and `t_type` from
trait `Token` (the `Rc` wrapper around tokens is value-irrelevant and
dropped). -/
structure ScannerOps (S Tok TokTy : Type) where
  from_scanner : S → S
  scan_token : S → S
  is_finished : S → Bool
  current_token : S → Tok
  next_token : S → Tok
  t_type : Tok → TokTy

/-- Embedding of `Parser<S, T>` from `src/parser.rs`: a suspended computation
from a scanner state to a (value, scanner state, error log) triple. -/
def Parser (S V : Type) : Type :=
  S → V × S × List String

namespace Parser

variable {S Tok TokTy T U V W : Type}

/-- `Parser::result` (`src/parser.rs`, lines 48-52). -/
def result (value : V) : Parser S V :=
  fun scanner => (value, scanner, [])

/-- `Parser::error` (`src/parser.rs`, lines 54-58). -/
def error (value : V) (msg : String) : Parser S V :=
  fun scanner => (value, scanner, [msg])

/-- `Parser::evaluate` (`src/parser.rs`, lines 69-71). -/
def evaluate (p : Parser S V) (scanner : S) : V × S × List String :=
  p scanner

/-- `Parser::run` (`src/parser.rs`, lines 60-67). -/
def run (p : Parser S V) (scanner : S) : Except (List String) V :=
  let r := evaluate p scanner
  if r.2.2.isEmpty then Except.ok r.1 else Except.error r.2.2

/-- The `>>` sequencing operator, `Shr::shr` (`src/parser.rs`, lines 76-92):
evaluate `p`, feed its value to `f`, evaluate the resulting parser on the
scanner produced by `p`, and append the two error logs. -/
def bind (p : Parser S T) (f : T → Parser S U) : Parser S U :=
  fun scanner =>
    let r1 := evaluate p scanner
    let r2 := evaluate (f r1.1) r1.2.1
    (r2.1, r2.2.1, r1.2.2 ++ r2.2.2)

/-- `Parser::get_scanner` (`src/parser.rs`, lines 12-16): the value is the
snapshot `S::from_scanner(&scanner)`, the threaded state is passed through. -/
def get_scanner (ops : ScannerOps S Tok TokTy) : Parser S S :=
  fun scanner => (ops.from_scanner scanner, scanner, [])

/-- `Parser::set_scanner` (`src/parser.rs`, lines 21-25): discards the
incoming state and installs `S::from_scanner(&scanner)`. -/
def set_scanner (ops : ScannerOps S Tok TokTy) (scanner : S) : Parser S Unit :=
  fun _ => ((), ops.from_scanner scanner, [])

/-- `Parser::or` (`src/parser.rs`, lines 30-34). -/
def or (p other : Parser S Bool) : Parser S Bool :=
  bind p fun a => bind other fun b => result (a || b)

/-- `Parser::if_else` (`src/parser.rs`, lines 36-43). -/
def if_else (c : Parser S Bool) (t f : Parser S V) : Parser S V :=
  bind c fun is_true => if is_true then t else f

end Parser

/-- `multi_if` (`src/parser.rs`, lines 94-101): repeatedly pop the last
branch off the vector and wrap it around the accumulated `otherwise`. -/
def multi_if {S V : Type} (branches : List (Parser S Bool × Parser S V))
    (otherwise : Parser S V) : Parser S V :=
  match h : branches.getLast? with
  | none => otherwise
  | some ct => multi_if branches.dropLast (Parser.if_else ct.1 ct.2 otherwise)
termination_by branches.length
decreasing_by
  have hne : branches ≠ [] := by
    intro hnil
    rw [hnil] at h
    simp at h
  rw [List.length_dropLast]
  have : 0 < branches.length := List.length_pos.mpr hne
  omega

/-- `is_at_end` (`src/parser/parser_functions.rs`, lines 6-10). -/
def is_at_end {S Tok TokTy : Type} (ops : ScannerOps S Tok TokTy) : Parser S Bool :=
  Parser.bind (Parser.get_scanner ops) fun scanner =>
    Parser.result (ops.is_finished scanner)

/-- `previous` (`src/parser/parser_functions.rs`, lines 12-16). -/
def previous {S Tok TokTy : Type} (ops : ScannerOps S Tok TokTy) : Parser S Tok :=
  Parser.bind (Parser.get_scanner ops) fun scanner =>
    Parser.result (ops.current_token scanner)

/-- `peek` (`src/parser/parser_functions.rs`, lines 18-22). -/
def peek {S Tok TokTy : Type} (ops : ScannerOps S Tok TokTy) : Parser S Tok :=
  Parser.bind (Parser.get_scanner ops) fun scanner =>
    Parser.result (ops.next_token scanner)

/-- `advance` (`src/parser/parser_functions.rs`, lines 24-29). -/
def advance {S Tok TokTy : Type} (ops : ScannerOps S Tok TokTy) : Parser S Tok :=
  Parser.bind (Parser.get_scanner ops) fun scanner =>
    Parser.bind (Parser.set_scanner ops (ops.scan_token scanner)) fun _ =>
      previous ops

/-- `check` (`src/parser/parser_functions.rs`, lines 31-38); the Rust `==`
on the derived-`PartialEq` token type is structural equality. -/
def check {S Tok TokTy : Type} [DecidableEq TokTy] (ops : ScannerOps S Tok TokTy)
    (t_type : TokTy) : Parser S Bool :=
  Parser.if_else (is_at_end ops)
    (Parser.result false)
    (Parser.bind (peek ops) fun token =>
      Parser.result (decide (ops.t_type token = t_type)))

/-- `matches` (`src/parser/parser_functions.rs`, lines 40-47); `matches` is a
Lean keyword, hence the name `matchesTok`. -/
def matchesTok {S Tok TokTy : Type} [DecidableEq TokTy] (ops : ScannerOps S Tok TokTy)
    (t_type : TokTy) : Parser S Bool :=
  Parser.if_else (check ops t_type)
    (Parser.bind (advance ops) fun _ => Parser.result true)
    (Parser.result false)

/-- `TokenType` of the test double in `src/parser/parser_functions.rs`
(variants `A`, `B`, `None`; the last is renamed `NoneTy` here). -/
inductive TokenType where
  | A
  | B
  | NoneTy
deriving DecidableEq

/-- `TestToken` of the test double in `src/parser/parser_functions.rs`. -/
structure TestToken where
  ty : TokenType
deriving DecidableEq

/-- `TestScanner` of the test double in `src/parser/parser_functions.rs`. -/
structure TestScanner where
  tokens : List TestToken
  is_at_start : Nat
deriving DecidableEq

/-- The sentinel `TestToken(TokenType::None)`. -/
def noneToken : TestToken := ⟨TokenType.NoneTy⟩

/-- The `Scanner`/`Token` implementation of the test double in
`src/parser/parser_functions.rs` (lines 121-179): `from_scanner` clones,
`scan_token` flips `is_at_start` to 1 on first use and pops the front token
afterwards, `current_token` is the sentinel before the first `scan_token`
and the front token after, `next_token` indexes by `is_at_start`. -/
def testOps : ScannerOps TestScanner TestToken TokenType where
  from_scanner := fun s => ⟨s.tokens, s.is_at_start⟩
  scan_token := fun s =>
    if s.is_at_start = 0 then ⟨s.tokens, 1⟩ else ⟨s.tokens.drop 1, s.is_at_start⟩
  is_finished := fun s => s.tokens.isEmpty
  current_token := fun s =>
    if s.is_at_start = 0 then noneToken else s.tokens.headD noneToken
  next_token := fun s => (s.tokens.drop s.is_at_start).headD noneToken
  t_type := fun tok => tok.ty

/-- The token `TestToken::a()`. -/
def tokA : TestToken := ⟨TokenType.A⟩

/-- The token `TestToken::b()`. -/
def tokB : TestToken := ⟨TokenType.B⟩

/-- The two-token stream `[A, B]` before any token is consumed. -/
def scannerAB : TestScanner := ⟨[tokA, tokB], 0⟩

/-! ### Helper lemmas shared by the claim theorems -/

/-- Applying `if_else` to a scanner: the condition runs first, then exactly
the selected branch runs from the condition's resulting scanner state. -/
theorem if_else_apply {S V : Type} (c : Parser S Bool) (t f : Parser S V) (s : S) :
    Parser.if_else c t f s
      = (if (c s).1 then
          ((t (c s).2.1).1, (t (c s).2.1).2.1, (c s).2.2 ++ (t (c s).2.1).2.2)
        else
          ((f (c s).2.1).1, (f (c s).2.1).2.1, (c s).2.2 ++ (f (c s).2.1).2.2)) := by
  cases hb : (c s).1 <;> simp [Parser.if_else, Parser.bind, Parser.evaluate, hb]

/-- `multi_if` on an empty branch vector is the fallback. -/
theorem multi_if_nil {S V : Type} (o : Parser S V) :
    multi_if ([] : List (Parser S Bool × Parser S V)) o = o := by
  rw [multi_if]
  rfl

/-- `multi_if` pops the last branch and wraps it around the fallback. -/
theorem multi_if_concat {S V : Type} (bs : List (Parser S Bool × Parser S V))
    (ct : Parser S Bool × Parser S V) (o : Parser S V) :
    multi_if (bs ++ [ct]) o = multi_if bs (Parser.if_else ct.1 ct.2 o) := by
  rw [multi_if]
  split
  · next h => simp [List.getLast?_concat] at h
  · next ct2 h =>
      rw [List.getLast?_concat] at h
      injection h with h
      subst h
      rw [List.dropLast_concat]

/-- `multi_if` is the right fold of `if_else` over the branch list. -/
theorem multi_if_eq_foldr {S V : Type} (bs : List (Parser S Bool × Parser S V))
    (o : Parser S V) :
    multi_if bs o = bs.foldr (fun ct acc => Parser.if_else ct.1 ct.2 acc) o := by
  induction bs using List.reverseRecOn generalizing o with
  | nil => exact multi_if_nil o
  | append_singleton bs ct ih =>
      rw [multi_if_concat, ih, List.foldr_append]
      rfl

/-- Unfolding `multi_if` at the front of the branch list: the first branch
is the outermost `if_else`, so conditions are tried in list order. -/
theorem multi_if_cons {S V : Type} (ct : Parser S Bool × Parser S V)
    (bs : List (Parser S Bool × Parser S V)) (o : Parser S V) :
    multi_if (ct :: bs) o = Parser.if_else ct.1 ct.2 (multi_if bs o) := by
  rw [multi_if_eq_foldr, multi_if_eq_foldr, List.foldr_cons]

/-- `if_else` on a pure condition simply selects a branch, with no
contribution at all from the non-selected branch. -/
theorem if_else_result {S V : Type} (b : Bool) (t f : Parser S V) (s : S) :
    Parser.if_else (Parser.result b) t f s = if b then t s else f s := by
  cases b <;> simp [Parser.if_else, Parser.bind, Parser.result, Parser.evaluate]

/-- `multi_if` over pure boolean conditions is first-match-wins: the first
true condition selects its consequence, and no other branch contributes. -/
theorem multi_if_pure_first_match {S V : Type} (flags : List (Bool × Parser S V))
    (o : Parser S V) (s : S) :
    multi_if (flags.map fun bt => (Parser.result bt.1, bt.2)) o s
      = ((flags.find? fun bt => bt.1).elim (o s) fun bt => bt.2 s) := by
  induction flags generalizing o with
  | nil =>
      rw [List.map_nil, multi_if_nil]
      rfl
  | cons bt rest ih =>
      rw [List.map_cons, multi_if_cons, if_else_result]
      cases hb : bt.1 with
      | false =>
          rw [if_neg (by simp [hb]), ih, List.find?_cons_of_neg _ (by simp [hb])]
      | true =>
          rw [if_pos (by simp [hb]), List.find?_cons_of_pos _ (by simp [hb])]
          rfl

/-- A parser whose error log is empty at `s` succeeds under `run`. -/
theorem run_of_no_errors {S V : Type} (p : Parser S V) (s : S)
    (h : (p s).2.2 = []) : Parser.run p s = Except.ok (p s).1 := by
  rw [Parser.run]
  simp [Parser.evaluate, h]

/-- `if_else` records no errors when the condition and both branches
record none. -/
theorem if_else_no_errors {S V : Type} (c : Parser S Bool) (t f : Parser S V)
    (s : S) (hc : (c s).2.2 = []) (ht : ∀ x, (t x).2.2 = [])
    (hf : ∀ x, (f x).2.2 = []) : (Parser.if_else c t f s).2.2 = [] := by
  cases hb : (c s).1 <;>
    simp [Parser.if_else, Parser.bind, Parser.evaluate, hb, hc, ht, hf]

/-! ### Claim theorems -/

/-- C1: `bind` (`>>`) first runs `p` obtaining `(value, scanner1, errors1)`,
then always applies `f` to `value` and runs the resulting parser on
`scanner1` obtaining `(finalValue, scanner2, errors2)` — regardless of
`errors1`, with no short-circuit — and the overall result is
`(finalValue, scanner2, errors1 ++ errors2)`; in particular
`error((), "a") >> (fun _ => error((), "b"))` yields the ordered error list
`["a", "b"]`. -/
theorem bind_no_short_circuit {S T U : Type} (p : Parser S T)
    (f : T → Parser S U) (s : S) :
    Parser.bind p f s
      = ((f (p s).1 (p s).2.1).1, (f (p s).1 (p s).2.1).2.1,
         (p s).2.2 ++ (f (p s).1 (p s).2.1).2.2)
    ∧ Parser.bind (Parser.error () "a") (fun _ => Parser.error () "b") s
        = ((), s, ["a", "b"]) :=
  ⟨rfl, rfl⟩

/-- C2: `bind` with `result` is a lawful monad over (scanner state, error
log): left identity, right identity, and associativity, all as equalities of
(value, final scanner, error log) triples on every initial scanner state. -/
theorem bind_monad_laws {S T U W : Type} (v : T) (f : T → Parser S U)
    (p : Parser S T) (g : U → Parser S W) (s : S) :
    Parser.bind (Parser.result v) f s = f v s
    ∧ Parser.bind p Parser.result s = p s
    ∧ Parser.bind (Parser.bind p f) g s
        = Parser.bind p (fun x => Parser.bind (f x) g) s := by
  refine ⟨?_, ?_, ?_⟩ <;>
    simp [Parser.bind, Parser.result, Parser.evaluate, List.append_assoc]

/-- C3: `run` returns `Ok` with the final value exactly when the accumulated
error log is empty, and otherwise `Err` with the full ordered log; the final
scanner state plays no role in `run`'s result (replacing it by any other
state leaves the result unchanged). -/
theorem run_ok_iff_no_errors {S V : Type} (p : Parser S V) (s : S) :
    (Parser.run p s
      = if (p s).2.2 = [] then Except.ok (p s).1 else Except.error (p s).2.2)
    ∧ (∀ s2 : S, Parser.run (fun x => ((p x).1, s2, (p x).2.2)) s
        = Parser.run p s) := by
  constructor
  · rw [Parser.run]
    rcases h : (p s).2.2 with _ | ⟨a, l⟩ <;> simp [Parser.evaluate, h]
  · intro s2
    rfl

/-- C4: `error(v, m)` on scanner `s` produces exactly the value `v`, the
unchanged scanner `s`, and the single-entry log `[m]`; it does not stop
execution, so a sequenced continuation still runs and its own errors are
appended after `m`. -/
theorem error_records_and_continues {S V U : Type} (v : V) (m : String)
    (s : S) (f : V → Parser S U) :
    Parser.error v m s = (v, s, [m])
    ∧ Parser.bind (Parser.error v m) f s
        = ((f v s).1, (f v s).2.1, m :: (f v s).2.2) :=
  ⟨rfl, rfl⟩

/-- C5: `if_else` runs the condition first; if its value is true it continues
with the then-branch from the condition's resulting scanner state, otherwise
with the else-branch; exactly one branch executes and the non-selected branch
contributes neither scanner movement nor error-log entries. -/
theorem if_else_selects_one_branch {S V : Type} (c : Parser S Bool)
    (t f : Parser S V) (s : S) :
    Parser.if_else c t f s
      = (if (c s).1 then
          ((t (c s).2.1).1, (t (c s).2.1).2.1, (c s).2.2 ++ (t (c s).2.1).2.2)
        else
          ((f (c s).2.1).1, (f (c s).2.1).2.1,
            (c s).2.2 ++ (f (c s).2.1).2.2)) :=
  if_else_apply c t f s

/-- C6: `multi_if` tries conditions in list order, first-match-wins: an empty
branch list selects the fallback, the head branch is the outermost `if_else`,
over pure conditions the first true condition selects its consequence (and
otherwise the fallback runs), and with conditions `[false, true]` the second
consequence is produced with the first never contributing. -/
theorem multi_if_first_match_wins {S V : Type}
    (bs : List (Parser S Bool × Parser S V)) (ct : Parser S Bool × Parser S V)
    (o : Parser S V) (flags : List (Bool × Parser S V)) (s : S) :
    multi_if ([] : List (Parser S Bool × Parser S V)) o = o
    ∧ multi_if (ct :: bs) o = Parser.if_else ct.1 ct.2 (multi_if bs o)
    ∧ (multi_if (flags.map fun bt => (Parser.result bt.1, bt.2)) o s
        = ((flags.find? fun bt => bt.1).elim (o s) fun bt => bt.2 s))
    ∧ multi_if [(Parser.result false, Parser.result "fail1"),
        (Parser.result true, Parser.result "success")]
        (Parser.result "fail2") s
        = ("success", s, ([] : List String)) := by
  refine ⟨multi_if_nil o, multi_if_cons ct bs o,
    multi_if_pure_first_match flags o s, ?_⟩
  simp [multi_if_cons, multi_if_nil, if_else_result, Parser.result]

/-- C7: under the Scanner snapshot contract (`from_scanner` is value-equal to
its argument), `check(ty)` yields false at end-of-input and otherwise yields
true iff the peeked token's type equals `ty`, never moving the scanner and
recording no errors; `matchesTok(ty)` advances past the upcoming token and
yields true when `check(ty)` is true, and otherwise yields false leaving the
scanner unchanged. -/
theorem check_matchesTok_semantics {S Tok TokTy : Type} [DecidableEq TokTy]
    (ops : ScannerOps S Tok TokTy) (hfs : ∀ x, ops.from_scanner x = x)
    (ty : TokTy) (s : S) :
    check ops ty s
      = ((if ops.is_finished s then false
          else decide (ops.t_type (ops.next_token s) = ty)), s, [])
    ∧ matchesTok ops ty s
      = (if (check ops ty s).1
          then (true, ops.scan_token s, ([] : List String))
          else (false, s, [])) := by
  have hcheck : check ops ty s
      = ((if ops.is_finished s then false
          else decide (ops.t_type (ops.next_token s) = ty)), s, []) := by
    by_cases hfin : ops.is_finished s = true <;>
      simp [check, is_at_end, peek, Parser.if_else, Parser.bind, Parser.result,
        Parser.get_scanner, Parser.evaluate, hfs, hfin]
  have hadv : advance ops s
      = (ops.current_token (ops.scan_token s), ops.scan_token s, []) := by
    simp [advance, previous, Parser.bind, Parser.get_scanner, Parser.set_scanner,
      Parser.result, Parser.evaluate, hfs]
  refine ⟨hcheck, ?_⟩
  by_cases hfin : ops.is_finished s = true
  · simp [matchesTok, check, is_at_end, peek, Parser.if_else, Parser.bind,
      Parser.result, Parser.get_scanner, Parser.evaluate, hfs, hfin]
  · by_cases hty : ops.t_type (ops.next_token s) = ty
    · simp [matchesTok, check, is_at_end, peek, advance, previous,
        Parser.if_else, Parser.bind, Parser.result, Parser.get_scanner,
        Parser.set_scanner, Parser.evaluate, hfs, hfin, hty]
    · simp [matchesTok, check, is_at_end, peek, Parser.if_else, Parser.bind,
        Parser.result, Parser.get_scanner, Parser.evaluate, hfs, hfin, hty]

/-- Witness for C7: the claim instantiated on the test scanner with the
two-token stream `[A, B]` and token type `A`. -/
theorem check_matchesTok_semantics_witness :
    check testOps TokenType.A scannerAB
      = ((if testOps.is_finished scannerAB then false
          else decide (testOps.t_type (testOps.next_token scannerAB)
            = TokenType.A)), scannerAB, [])
    ∧ matchesTok testOps TokenType.A scannerAB
      = (if (check testOps TokenType.A scannerAB).1
          then (true, testOps.scan_token scannerAB, ([] : List String))
          else (false, scannerAB, [])) :=
  check_matchesTok_semantics testOps (fun _ => rfl) TokenType.A scannerAB

/-- C8: under the Scanner snapshot contract, `advance()` replaces the
threaded scanner state with the state after consuming one token and returns
the token that is current in the advanced state; concretely on the stream
`[A, B]`, `peek()` initially yields `A`, and after `advance()` the value of
`previous()` is `A` and the value of `peek()` is `B`. -/
theorem advance_semantics {S Tok TokTy : Type} (ops : ScannerOps S Tok TokTy)
    (hfs : ∀ x, ops.from_scanner x = x) (s : S) :
    advance ops s = (ops.current_token (ops.scan_token s), ops.scan_token s, [])
    ∧ (peek testOps scannerAB).1 = tokA
    ∧ (previous testOps (advance testOps scannerAB).2.1).1 = tokA
    ∧ (peek testOps (advance testOps scannerAB).2.1).1 = tokB := by
  refine ⟨?_, rfl, rfl, rfl⟩
  simp [advance, previous, Parser.bind, Parser.get_scanner, Parser.set_scanner,
    Parser.result, Parser.evaluate, hfs]

/-- Witness for C8: the claim instantiated on the test scanner with the
two-token stream `[A, B]`. -/
theorem advance_semantics_witness :
    (advance testOps scannerAB
      = (testOps.current_token (testOps.scan_token scannerAB),
         testOps.scan_token scannerAB, []))
    ∧ (peek testOps scannerAB).1 = tokA
    ∧ (previous testOps (advance testOps scannerAB).2.1).1 = tokA
    ∧ (peek testOps (advance testOps scannerAB).2.1).1 = tokB :=
  advance_semantics testOps (fun _ => rfl) scannerAB

/-- C9: the read-only operations leave the threaded scanner state unchanged:
`get_scanner`, `peek`, `previous`, `is_at_end` and `check` each produce a
resulting scanner state equal to the input state, and under the snapshot
contract `get_scanner`'s value is the (value-equal) input state itself. -/
theorem read_only_ops_preserve_scanner {S Tok TokTy : Type} [DecidableEq TokTy]
    (ops : ScannerOps S Tok TokTy) (hfs : ∀ x, ops.from_scanner x = x)
    (ty : TokTy) (s : S) :
    (Parser.get_scanner ops s).2.1 = s
    ∧ (Parser.get_scanner ops s).1 = s
    ∧ (peek ops s).2.1 = s
    ∧ (previous ops s).2.1 = s
    ∧ (is_at_end ops s).2.1 = s
    ∧ (check ops ty s).2.1 = s := by
  refine ⟨rfl, hfs s, rfl, rfl, rfl, ?_⟩
  by_cases hfin : ops.is_finished s = true <;>
    simp [check, is_at_end, peek, Parser.if_else, Parser.bind, Parser.result,
      Parser.get_scanner, Parser.evaluate, hfs, hfin]

/-- Witness for C9: the claim instantiated on the test scanner with the
two-token stream `[A, B]` and token type `A`. -/
theorem read_only_ops_preserve_scanner_witness :
    (Parser.get_scanner testOps scannerAB).2.1 = scannerAB
    ∧ (Parser.get_scanner testOps scannerAB).1 = scannerAB
    ∧ (peek testOps scannerAB).2.1 = scannerAB
    ∧ (previous testOps scannerAB).2.1 = scannerAB
    ∧ (is_at_end testOps scannerAB).2.1 = scannerAB
    ∧ (check testOps TokenType.A scannerAB).2.1 = scannerAB :=
  read_only_ops_preserve_scanner testOps (fun _ => rfl) TokenType.A scannerAB

/-- C10: no token-stream primitive ever records a diagnostic: on every
scanner state each of `is_at_end`, `previous`, `peek`, `advance`, `check`
and `matchesTok` produces an empty error log, so running any one of them
alone returns `Ok` with its value. -/
theorem primitives_record_no_errors {S Tok TokTy : Type} [DecidableEq TokTy]
    (ops : ScannerOps S Tok TokTy) (ty : TokTy) (s : S) :
    (is_at_end ops s).2.2 = []
    ∧ (previous ops s).2.2 = []
    ∧ (peek ops s).2.2 = []
    ∧ (advance ops s).2.2 = []
    ∧ (check ops ty s).2.2 = []
    ∧ (matchesTok ops ty s).2.2 = []
    ∧ Parser.run (is_at_end ops) s = Except.ok (is_at_end ops s).1
    ∧ Parser.run (previous ops) s = Except.ok (previous ops s).1
    ∧ Parser.run (peek ops) s = Except.ok (peek ops s).1
    ∧ Parser.run (advance ops) s = Except.ok (advance ops s).1
    ∧ Parser.run (check ops ty) s = Except.ok (check ops ty s).1
    ∧ Parser.run (matchesTok ops ty) s = Except.ok (matchesTok ops ty s).1 := by
  have h5 : (check ops ty s).2.2 = [] :=
    if_else_no_errors _ _ _ s rfl (fun x => rfl) (fun x => rfl)
  have h6 : (matchesTok ops ty s).2.2 = [] :=
    if_else_no_errors _ _ _ s h5 (fun x => rfl) (fun x => rfl)
  exact ⟨rfl, rfl, rfl, rfl, h5, h6,
    run_of_no_errors _ s rfl, run_of_no_errors _ s rfl, run_of_no_errors _ s rfl,
    run_of_no_errors _ s rfl, run_of_no_errors _ s h5, run_of_no_errors _ s h6⟩
